import Mathlib

/-!
Shallow embedding of the "stuff" accounting library (src/stuff/stuff.py and
src/stuff/unique_stuff.py) and proofs about the claims of its specification.

Modelling conventions:
* Python `int` is `Int` (arbitrary precision); `//` and `%` on Python ints
  are `Int.ediv` / `Int.emod` (they agree with Python's floor division and
  modulus for the positive divisors used here).
* A raised Python exception is an element of `PyError`; `ValueError`
  corresponds to the spec's RangeError-kind and `TypeError` to its
  TypeError-kind.  `nameError` / `attributeError` model the interpreter
  errors raised when the source references an unbound name.
* Each mutating method `m` of the source becomes a function returning
  `Except PyError ρ × σ`: the first component is the returned value or the
  raised exception, the second the state of the receiver (and, for binary
  operations, of the other operand) after the call.  In the source every
  `raise` happens before any field assignment, so on an error the returned
  state equals the input state.
* Python class identity (`type(self) != type(other)`) is modelled by a
  `typeId` field on the type descriptor: two distinct class definitions get
  distinct ids even when `min_amount`/`granularity`/`name` coincide.
-/

/-- The kinds of exception the translated code can raise.  `valueError` is the
spec's RangeError-kind, `typeError` its TypeError-kind; `nameError` and
`attributeError` are interpreter errors for unbound names / missing
attributes. -/
inductive PyError where
  | typeError
  | valueError
  | nameError
  | attributeError
  deriving DecidableEq, Repr

instance {ε α : Type} [DecidableEq ε] [DecidableEq α] : DecidableEq (Except ε α) :=
  fun a b => by
    cases a <;> cases b <;>
      first
        | exact isFalse (fun h => Except.noConfusion h)
        | exact decidable_of_iff _ (by rw [Except.error.injEq])
        | exact decidable_of_iff _ (by rw [Except.ok.injEq])

/-- A defined Stuff subtype: the class-level configuration validated by
`MetaStuff.__init__` (src/stuff/stuff.py lines 59-88).  `typeId` models the
identity of the Python class object itself, so that two classes with equal
configuration are still different types. -/
structure StuffType where
  typeId : Nat
  min_amount : Int
  granularity : Int
  name : Option String
  deriving DecidableEq, Repr

/-- `Stuff.least_allowed_units` (src/stuff/stuff.py lines 123-128):
`math.ceil(min_amount / granularity)`, the minimum number of units a nonzero
instance is meant to hold.  For `granularity >= 1` the exact integer ceiling
is `(min_amount + granularity - 1) // granularity`. -/
def least_allowed_units (ty : StuffType) : Int :=
  (ty.min_amount + ty.granularity - 1) / ty.granularity

/-- A fungible Stuff instance: its class and its `_granular_units` field. -/
structure StuffInst where
  ty : StuffType
  granular_units : Int
  deriving DecidableEq, Repr

/-- `Stuff.units` property (src/stuff/stuff.py lines 148-151). -/
def StuffInst.units (s : StuffInst) : Int := s.granular_units

/-- `Stuff.amount` property (src/stuff/stuff.py lines 143-146). -/
def StuffInst.amount (s : StuffInst) : Int := s.granular_units * s.ty.granularity

/-- `Stuff.add_units` (src/stuff/stuff.py lines 153-168): rejects negative
unit counts, otherwise increments `_granular_units` and returns the new unit
count.  (The `isinstance(units, int)` check is discharged by the `Int`
type of the argument.) -/
def add_units (s : StuffInst) (units : Int) : Except PyError Int × StuffInst :=
  if units < 0 then (.error .valueError, s)
  else
    let s' : StuffInst := { s with granular_units := s.granular_units + units }
    (.ok s'.units, s')

/-- `Stuff.add` (src/stuff/stuff.py lines 170-185): rejects amounts not
divisible by the granularity, then delegates to `add_units` and returns the
new amount. -/
def add_amount (s : StuffInst) (amount : Int) : Except PyError Int × StuffInst :=
  if amount % s.ty.granularity ≠ 0 then (.error .valueError, s)
  else
    match add_units s (amount / s.ty.granularity) with
    | (.error e, s') => (.error e, s')
    | (.ok _, s') => (.ok s'.amount, s')

/-- `Stuff.__init__` (src/stuff/stuff.py lines 130-141): starts from
`_granular_units = 0` and adds the requested amount via `add_units` (when
`use_units`) or `add`.  An exception means the object is never produced. -/
def stuff_init (ty : StuffType) (amount : Int) (use_units : Bool) :
    Except PyError StuffInst :=
  let s0 : StuffInst := { ty := ty, granular_units := 0 }
  let r := if use_units then add_units s0 amount else add_amount s0 amount
  match r with
  | (.error e, _) => .error e
  | (.ok _, s') => .ok s'

/-- `Stuff._with_units` (src/stuff/stuff.py lines 342-351):
`type(self)(amount=units, use_units=True)`. -/
def with_units (ty : StuffType) (units : Int) : Except PyError StuffInst :=
  stuff_init ty units true

/-- `Stuff.remove_units` (src/stuff/stuff.py lines 187-208): rejects negative
counts, counts larger than the holding, and removals leaving a nonzero
remainder below `least_allowed_units`; otherwise decrements and returns the
remainder. -/
def remove_units (s : StuffInst) (units : Int) : Except PyError Int × StuffInst :=
  if units < 0 then (.error .valueError, s)
  else if s.granular_units < units then (.error .valueError, s)
  else
    let remaining := s.granular_units - units
    if remaining ≠ 0 ∧ remaining < least_allowed_units s.ty then
      (.error .valueError, s)
    else (.ok remaining, { s with granular_units := remaining })

/-- `Stuff.remove` (src/stuff/stuff.py lines 210-226): after the granularity
check, the source executes `self.remove_units(amount // granularity)` where
`granularity` is an unbound name (line 225; every other method writes
`self.granularity`), so any call that reaches that line raises `NameError`. -/
def remove_amount (s : StuffInst) (amount : Int) : Except PyError Int × StuffInst :=
  if amount % s.ty.granularity ≠ 0 then (.error .valueError, s)
  else (.error .nameError, s)

/-- `Stuff.combine` (src/stuff/stuff.py lines 246-262): requires identical
concrete types, then moves all units into `self`, zeroes `other`, and returns
`self`.  Result components: (returned value, self after, other after); the
returned instance is `self` itself. -/
def combine_stuff (s other : StuffInst) :
    Except PyError StuffInst × StuffInst × StuffInst :=
  if s.ty ≠ other.ty then (.error .typeError, s, other)
  else
    let s' : StuffInst := { s with granular_units := s.granular_units + other.granular_units }
    let o' : StuffInst := { other with granular_units := 0 }
    (.ok s', s', o')

/-- `Stuff.separate_units` (src/stuff/stuff.py lines 264-289): rejects
negative counts, counts above the holding, counts below
`least_allowed_units` (with no exemption for zero), and removals leaving a
nonzero remainder below the minimum; otherwise builds the new instance via
`_with_units` and decrements `self`.  Result components:
(returned new instance, self after). -/
def separate_units (s : StuffInst) (units : Int) :
    Except PyError StuffInst × StuffInst :=
  if units < 0 then (.error .valueError, s)
  else if s.granular_units < units then (.error .valueError, s)
  else if units < least_allowed_units s.ty then (.error .valueError, s)
  else
    let remaining := s.granular_units - units
    if remaining ≠ 0 ∧ remaining < least_allowed_units s.ty then
      (.error .valueError, s)
    else
      match with_units s.ty units with
      | .error e => (.error e, s)
      | .ok new_stuff => (.ok new_stuff, { s with granular_units := remaining })

/-- `Stuff.separate` (src/stuff/stuff.py lines 291-307): granularity check,
then `separate_units(amount // granularity)`. -/
def separate_amount (s : StuffInst) (amount : Int) :
    Except PyError StuffInst × StuffInst :=
  if amount % s.ty.granularity ≠ 0 then (.error .valueError, s)
  else separate_units s (amount / s.ty.granularity)

/-- Helper for `divide`: the unit count of piece `i` out of `pieces`, namely
`base + 1` for `i < remainder` and `base` otherwise (src/stuff/stuff.py
lines 333-337). -/
def piece_units (base rem : Int) (i : Nat) : Int :=
  base + if (i : Int) < rem then 1 else 0

/-- The `for i in range(pieces)` loop of `Stuff.divide` (src/stuff/stuff.py
lines 332-337): builds one new instance per requested unit count via
`_with_units`, stopping at the first raised exception. -/
def build_pieces (ty : StuffType) (l : List Int) : Except PyError (List StuffInst) :=
  match l with
  | [] => .ok []
  | u :: rest =>
    match with_units ty u, build_pieces ty rest with
    | .error e, _ => .error e
    | .ok _, .error e => .error e
    | .ok s, .ok tl => .ok (s :: tl)

/-- `Stuff.divide` (src/stuff/stuff.py lines 309-340): requires a positive
piece count, computes `divmod(_granular_units, pieces)`, rejects the split
when the base piece size is below `least_allowed_units`, then builds the
pieces via `_with_units` (piece `i` gets one extra unit when `i < remainder`)
and finally clears `self`.  Result components: (returned tuple, self after). -/
def divide_stuff (s : StuffInst) (pieces : Int) :
    Except PyError (List StuffInst) × StuffInst :=
  if pieces ≤ 0 then (.error .valueError, s)
  else
    let base := s.granular_units / pieces
    let rem := s.granular_units % pieces
    if base < least_allowed_units s.ty then (.error .valueError, s)
    else
      match build_pieces s.ty ((List.range pieces.toNat).map (piece_units base rem)) with
      | .error e => (.error e, s)
      | .ok l => (.ok l, { s with granular_units := 0 })

/-- `Stuff.__mod__` (src/stuff/stuff.py lines 412-423): requires a positive
piece count and reports whether `_granular_units // pieces` reaches
`least_allowed_units`.  It only reads `self`, so the state component is the
unchanged receiver. -/
def mod_stuff (s : StuffInst) (pieces : Int) : Except PyError Bool × StuffInst :=
  if pieces ≤ 0 then (.error .valueError, s)
  else (.ok (least_allowed_units s.ty ≤ s.granular_units / pieces), s)

/-- The process-wide type registry `_REGISTRY` (src/stuff/stuff.py line 43):
a string-keyed mapping, modelled as an association list with unique keys. -/
abbrev Registry : Type := List (String × StuffType)

/-- `get_stuff` (src/stuff/stuff.py lines 45-52): `_REGISTRY.get(name)` —
the registered type for a present name, `None` (here `none`) otherwise.
A total function: it never raises. -/
def get_stuff (reg : Registry) (name : String) : Option StuffType :=
  (List.find? (fun e => e.1 = name) reg).map Prod.snd

/-- `MetaStuff.__init__` (src/stuff/stuff.py lines 59-88), the definition of
a new Stuff subtype: validates `min_amount >= 1` and `granularity >= 1`
(`ValueError` otherwise; the `isinstance` checks are discharged by the `Int`
arguments), then, when a name is given, registers the new class —
raising `TypeError` and leaving the registry untouched when the name is
already present.  Result components: (created type or error, registry
after). -/
def define_stuff (reg : Registry) (typeId : Nat) (min_amount granularity : Int)
    (name : Option String) : Except PyError StuffType × Registry :=
  if min_amount < 1 then (.error .valueError, reg)
  else if granularity < 1 then (.error .valueError, reg)
  else
    let ty : StuffType := ⟨typeId, min_amount, granularity, name⟩
    match name with
    | none => (.ok ty, reg)
    | some n =>
      match get_stuff reg n with
      | some _ => (.error .typeError, reg)
      | none => (.ok ty, reg ++ [(n, ty)])

/-- A `UniqueStuff` instance (src/stuff/unique_stuff.py): its class and its
`_units` member set.  Members are identified by natural-number keys (Python
hashable objects); the base variant (`unit_type = None`) is modelled, so
`_convert_units` never raises on a set argument. -/
structure UniqueInst where
  ty : StuffType
  members : Finset Nat
  deriving DecidableEq

/-- `UniqueStuff.remove` (src/stuff/unique_stuff.py lines 116-131): after
converting the argument to a set, it raises `ValueError` when
`units > self._units` — Python's *proper superset* test on sets — and
otherwise assigns the set difference.  (Note this is not the subset test the
error message describes.)  Result components: (returned `None`, self
after). -/
def unique_remove (s : UniqueInst) (units : Finset Nat) :
    Except PyError Unit × UniqueInst :=
  if s.members ⊂ units then (.error .valueError, s)
  else (.ok (), { s with members := s.members \ units })

/-- `UniqueStuff.put` (src/stuff/unique_stuff.py lines 140-156): requires
identical concrete types, then unions the members into `self`, empties
`other`, and returns `self`.  Result components: (returned value, self
after, other after). -/
def unique_put (s other : UniqueInst) :
    Except PyError UniqueInst × UniqueInst × UniqueInst :=
  if s.ty ≠ other.ty then (.error .typeError, s, other)
  else
    let s' : UniqueInst := { s with members := s.members ∪ other.members }
    let o' : UniqueInst := { other with members := ∅ }
    (.ok s', s', o')

/-- `_with_units` invoked on a `UniqueStuff` instance: `UniqueStuff` does not
override `_with_units`, so the inherited `Stuff._with_units`
(src/stuff/stuff.py line 351) runs `type(self)(amount=units, use_units=True)`
— but `UniqueStuff.__init__` (src/stuff/unique_stuff.py line 82) accepts only
a `units` parameter, so the call always raises `TypeError` (unexpected
keyword argument) and no instance is ever created. -/
def unique_with_units (_ty : StuffType) (_units : Finset Nat) :
    Except PyError UniqueInst :=
  .error .typeError

/-- `UniqueStuff.combine` (src/stuff/unique_stuff.py lines 158-174): requires
identical concrete types, then runs `new_object = self._with_units(())`
before touching either operand.  Since `unique_with_units` always raises
`TypeError`, the same-type branch fails there with both operands unchanged;
the lines 172-174 that would fill the new instance with the union and empty
both operands are translated but unreachable.  Result components:
(returned value, self after, other after). -/
def unique_combine (s other : UniqueInst) :
    Except PyError UniqueInst × UniqueInst × UniqueInst :=
  if s.ty ≠ other.ty then (.error .typeError, s, other)
  else
    match unique_with_units s.ty ∅ with
    | .error e => (.error e, s, other)
    | .ok n0 =>
      let n : UniqueInst := { n0 with members := s.members ∪ other.members }
      (.ok n, { s with members := ∅ }, { other with members := ∅ })

/-- `UniqueStuff.divide` (src/stuff/unique_stuff.py lines 196-228): its first
statement is `isinstance(pieces, Integral)`, but `Integral` is never
imported in the module (only `ABCMeta`, `abstractmethod`, `islice`, `Stuff`
and `MetaStuff` are), so every call raises `NameError` before anything else
runs (a second unbound name, `remaining_units`, sits at line 224). -/
def unique_divide (s : UniqueInst) (_pieces : Int) :
    Except PyError (List UniqueInst) × UniqueInst :=
  (.error .nameError, s)

/-- Sample type for concrete theorems: `min_amount = 1`, `granularity = 1`. -/
def tyMin1 : StuffType := ⟨0, 1, 1, none⟩

/-- Sample type for concrete theorems: `min_amount = 3`, `granularity = 1`,
so `least_allowed_units = 3`. -/
def tyMin3 : StuffType := ⟨1, 3, 1, none⟩

/-- Sample type for concrete theorems: `min_amount = 6`, `granularity = 1`,
so `least_allowed_units = 6`. -/
def tyMin6 : StuffType := ⟨2, 6, 1, none⟩

/-- A second defined type with exactly the configuration of `tyMin6`; being a
different class definition it has a different `typeId`. -/
def tyOther : StuffType := ⟨3, 6, 1, none⟩

/-- Sample unique-stuff type. -/
def tyU : StuffType := ⟨4, 1, 1, none⟩

/-- A second unique-stuff type with the configuration of `tyU`. -/
def tyU2 : StuffType := ⟨5, 1, 1, none⟩

/-- A registered sample type named "A". -/
def tyRegA : StuffType := ⟨6, 1, 1, some "A"⟩

/-- A registry already holding `tyRegA` under the name "A". -/
def regA : Registry := [("A", tyRegA)]

/-- `with_units` either rejects a negative unit count or returns a fresh
instance holding exactly that count. -/
theorem with_units_eq (ty : StuffType) (u : Int) :
    with_units ty u = if u < 0 then .error .valueError else .ok ⟨ty, u⟩ := by
  by_cases h : u < 0 <;> simp [with_units, stuff_init, add_units, h]

/-- A validated type (`min_amount ≥ 1`, `granularity ≥ 1`) has a positive
least allowed unit count. -/
theorem one_le_least_allowed_units (ty : StuffType)
    (hm : 1 ≤ ty.min_amount) (hg : 1 ≤ ty.granularity) :
    1 ≤ least_allowed_units ty := by
  show 1 ≤ (ty.min_amount + ty.granularity - 1) / ty.granularity
  rw [Int.le_ediv_iff_mul_le (by omega)]
  omega

/-- Building pieces from nonnegative unit counts never raises. -/
theorem build_pieces_ok (ty : StuffType) (l : List Int) (h : ∀ u ∈ l, 0 ≤ u) :
    build_pieces ty l = .ok (l.map fun u => (⟨ty, u⟩ : StuffInst)) := by
  induction l with
  | nil => rfl
  | cons a t ih =>
    have ha : ¬ a < 0 := not_lt.mpr (h a (by simp))
    have ht : build_pieces ty t = .ok (t.map fun u => (⟨ty, u⟩ : StuffInst)) :=
      ih (fun u hu => h u (by simp [hu]))
    simp [build_pieces, with_units_eq, ha, ht]

/-- Sum of the piece sizes over `n` pieces: `n * base` plus one extra unit
for each index below `rem`. -/
theorem sum_piece_units (base rem : Int) (hrem : 0 ≤ rem) (n : Nat) :
    ((List.range n).map (piece_units base rem)).sum = n * base + min rem n := by
  induction n with
  | zero => simp [min_eq_right hrem]
  | succ n ih =>
    rw [List.range_succ, List.map_append, List.sum_append, ih]
    have hone : (List.map (piece_units base rem) [n]).sum = piece_units base rem n := by
      simp
    rw [hone]
    unfold piece_units
    push_cast
    rw [add_mul, one_mul]
    by_cases hc : (n : Int) < rem
    · rw [if_pos hc]; omega
    · rw [if_neg hc]; omega

/-- When the base piece size reaches the minimum, `divide` succeeds and
returns exactly the `base`/`base+1` pieces of the source loop, clearing
`self`. -/
theorem divide_stuff_ok (ty : StuffType) (u p : Int)
    (hp : 0 < p) (hleast : 1 ≤ least_allowed_units ty)
    (hle : least_allowed_units ty ≤ u / p) :
    divide_stuff ⟨ty, u⟩ p =
      (.ok ((List.range p.toNat).map fun i =>
          (⟨ty, piece_units (u / p) (u % p) i⟩ : StuffInst)),
        ⟨ty, 0⟩) := by
  have hmap : build_pieces ty
      ((List.range p.toNat).map (piece_units (u / p) (u % p))) =
      .ok (((List.range p.toNat).map (piece_units (u / p) (u % p))).map
        fun v => (⟨ty, v⟩ : StuffInst)) := by
    refine build_pieces_ok ty _ (fun v hv => ?_)
    simp only [List.mem_map] at hv
    obtain ⟨i, _, rfl⟩ := hv
    unfold piece_units
    split <;> omega
  simp only [divide_stuff, if_neg (by omega : ¬ p ≤ 0)]
  rw [if_neg (by simpa using not_lt.mpr hle), hmap, List.map_map]
  rfl

/-- C1.  The claim says that for a fungible type with minimum `min_units`
(here `least_allowed_units tyMin6 = 6`) constructing an instance with `n`
units, `0 < n < min_units`, fails.  In the code `Stuff.__init__` delegates to
`add`/`add_units`, which only reject negative counts, so constructing with
3 units on a type whose minimum is 6 succeeds and leaves the instance
holding 3 units — as does adding 3 units to an empty instance. -/
theorem construct_ignores_minimum :
    stuff_init tyMin6 3 true = .ok ⟨tyMin6, 3⟩ ∧
    stuff_init tyMin6 3 false = .ok ⟨tyMin6, 3⟩ ∧
    add_units ⟨tyMin6, 0⟩ 3 = (.ok 3, ⟨tyMin6, 3⟩) ∧
    0 < (3 : Int) ∧ (3 : Int) < least_allowed_units tyMin6 := by
  refine ⟨rfl, rfl, rfl, by decide, ?_⟩
  decide

/-- C3.  The claim says `a.combine(b)` on fungible stuff returns a new
instance holding the sum and zeroes both operands.  The code
(src/stuff/stuff.py lines 246-262) instead moves all units into `a` and
returns `a` itself: with `a` holding 8 and `b` holding 4, the call returns
the updated `a` holding 12, `a` holds 12 (not 0) afterwards, and no third
instance is created. -/
theorem combine_keeps_units_in_self :
    combine_stuff ⟨tyMin1, 8⟩ ⟨tyMin1, 4⟩ =
      (.ok ⟨tyMin1, 12⟩, ⟨tyMin1, 12⟩, ⟨tyMin1, 0⟩) ∧
    (⟨tyMin1, 12⟩ : StuffInst).units ≠ 0 := by
  refine ⟨rfl, by decide⟩

/-- C4.  The claim says `remove(amount)` succeeds for a nonnegative multiple
of the granularity that is at most the holding and leaves 0 or at least the
minimum behind.  The code's `Stuff.remove` (src/stuff/stuff.py line 225)
divides by the unbound name `granularity`, so the valid call
`remove(2)` on an instance holding 6 units (granularity 1, minimum 1)
raises `NameError` instead of returning 4. -/
theorem remove_always_name_error :
    remove_amount ⟨tyMin1, 6⟩ 2 = (.error .nameError, ⟨tyMin1, 6⟩) ∧
    remove_units ⟨tyMin1, 6⟩ 2 = (.ok 4, ⟨tyMin1, 4⟩) := by
  refine ⟨rfl, rfl⟩

/-- C5.  The claim says separating `n = 0` units always succeeds, yielding a
new empty instance.  `Stuff.separate_units` (src/stuff/stuff.py line 282)
rejects every `units < least_allowed_units` with no exemption for zero, so
`separate(0)` on an instance of a type with minimum 3 holding 30 units
raises `ValueError` — both via `separate_units` and via `separate`. -/
theorem separate_zero_rejected :
    separate_units ⟨tyMin3, 30⟩ 0 = (.error .valueError, ⟨tyMin3, 30⟩) ∧
    separate_amount ⟨tyMin3, 30⟩ 0 = (.error .valueError, ⟨tyMin3, 30⟩) := by
  refine ⟨rfl, rfl⟩

/-- C7.  The claim says unique `remove(members)` raises the RangeError-kind
iff the argument is not a subset of the current members.  The code
(src/stuff/unique_stuff.py line 129) tests `units > self._units` — a proper
*superset* test — so removing `{2}` from an instance holding `{1}` raises
nothing and silently leaves `{1}`, although `{2}` is not a subset of
`{1}`. -/
theorem unique_remove_nonsubset_silent :
    unique_remove ⟨tyU, {1}⟩ {2} = (.ok (), ⟨tyU, {1}⟩) ∧
    ¬ (({2} : Finset Nat) ⊆ {1}) := by
  refine ⟨by decide, by decide⟩

/-- C8.  The claim says unique `divide(pieces)` partitions the member set
into `pieces` groups.  The first statement of the code
(src/stuff/unique_stuff.py line 212) references `Integral`, a name the
module never imports, so every call — here on members `{1, 2, 3}` with
2 pieces — raises `NameError` before any partitioning happens. -/
theorem unique_divide_name_error :
    unique_divide ⟨tyU, {1, 2, 3}⟩ 2 = (.error .nameError, ⟨tyU, {1, 2, 3}⟩) := rfl

/-- C2.  Divide determinism: on a validated fungible type, for every holding
of `u` units and every positive `p` whose base piece size `u // p` reaches
the minimum allowed unit count, `divide(p)` returns exactly `p` new
instances of the same type, the first `u % p` of them holding
`u // p + 1` (that is, `ceil(u/p)`) units and the remaining ones `u // p`
(that is, `floor(u/p)`), in that order; the pieces sum to `u` and `self` is
left holding 0. -/
theorem divide_determinism (ty : StuffType) (u p : Int)
    (hm : 1 ≤ ty.min_amount) (hg : 1 ≤ ty.granularity)
    (hp : 0 < p) (hle : least_allowed_units ty ≤ u / p) :
    ∃ l s', divide_stuff ⟨ty, u⟩ p = (.ok l, s') ∧
      (l.length : Int) = p ∧
      (∀ i (hi : i < l.length),
        (l.get ⟨i, hi⟩).ty = ty ∧
        (l.get ⟨i, hi⟩).granular_units =
          if (i : Int) < u % p then u / p + 1 else u / p) ∧
      (l.map StuffInst.units).sum = u ∧
      s' = ⟨ty, 0⟩ := by
  refine ⟨_, _,
    divide_stuff_ok ty u p hp (one_le_least_allowed_units ty hm hg) hle,
    ?_, ?_, ?_, rfl⟩
  · simp [Int.toNat_of_nonneg hp.le]
  · intro i hi
    have hi' : i < p.toNat := by simpa using hi
    simp [List.get_eq_getElem, piece_units, hi']
    split <;> simp
  · rw [List.map_map]
    have hcomp : (StuffInst.units ∘ fun i =>
        (⟨ty, piece_units (u / p) (u % p) i⟩ : StuffInst)) =
        piece_units (u / p) (u % p) := rfl
    rw [hcomp, sum_piece_units _ _ (Int.emod_nonneg u (by omega)) p.toNat]
    have hrem : u % p < p := Int.emod_lt_of_pos u hp
    rw [Int.toNat_of_nonneg hp.le, min_eq_left (le_of_lt hrem)]
    exact Int.ediv_add_emod u p

/-- C2 witness: a type with minimum 3 and granularity 1, 31 units divided
into 3 pieces. -/
theorem divide_determinism_witness :
    ∃ l s', divide_stuff ⟨tyMin3, 31⟩ 3 = (.ok l, s') ∧
      (l.length : Int) = 3 ∧ (l.map StuffInst.units).sum = 31 ∧
      s' = ⟨tyMin3, 0⟩ := by
  obtain ⟨l, s', h1, h2, _, h4, h5⟩ :=
    divide_determinism tyMin3 31 3 (by decide) (by decide) (by decide) (by decide)
  exact ⟨l, s', h1, h2, h4, h5⟩

/-- C6.  Type isolation: for fungible `combine` and unique `put`/`combine`,
operands of two distinct defined types — in particular a type and its
subtype, or two types with identical configuration — always produce the
TypeError-kind with both operands' contents unchanged, and the operations
succeed only when the two operands have the identical concrete type.
Fungible `combine` and unique `put` do succeed on identical types; the base
unique `combine` never succeeds at all — on identical types it still raises
the TypeError-kind, from the `_with_units` keyword-argument mismatch
(`unique_with_units`), again with both operands unchanged — so it too
satisfies "succeeds only on identical concrete types". -/
theorem type_isolation (s o : StuffInst) (us uo : UniqueInst) :
    (s.ty ≠ o.ty → combine_stuff s o = (.error .typeError, s, o)) ∧
    (∀ r, (combine_stuff s o).1 = .ok r → s.ty = o.ty) ∧
    (s.ty = o.ty → ∃ r, (combine_stuff s o).1 = .ok r) ∧
    (us.ty ≠ uo.ty → unique_put us uo = (.error .typeError, us, uo)) ∧
    (∀ r, (unique_put us uo).1 = .ok r → us.ty = uo.ty) ∧
    (us.ty = uo.ty → ∃ r, (unique_put us uo).1 = .ok r) ∧
    unique_combine us uo = (.error .typeError, us, uo) := by
  refine ⟨fun h => ?_, fun r hr => ?_, fun h => ?_, fun h => ?_, fun r hr => ?_,
    fun h => ?_, ?_⟩
  · simp [combine_stuff, h]
  · by_cases h : s.ty = o.ty
    · exact h
    · simp [combine_stuff, h] at hr
  · simp [combine_stuff, h]
  · simp [unique_put, h]
  · by_cases h : us.ty = uo.ty
    · exact h
    · simp [unique_put, h] at hr
  · simp [unique_put, h]
  · by_cases h : us.ty = uo.ty <;> simp [unique_combine, unique_with_units, h]

/-- C6 witness: `tyMin6` and `tyOther` have identical configuration but are
distinct defined types, and `tyU`/`tyU2` likewise for the unique variant;
same-type fungible `combine` and unique `put` succeed, while unique
`combine` raises the TypeError-kind in both the cross-type and the same-type
case, always leaving the operands unchanged. -/
theorem type_isolation_witness :
    combine_stuff ⟨tyMin6, 8⟩ ⟨tyOther, 8⟩ =
      (.error .typeError, ⟨tyMin6, 8⟩, ⟨tyOther, 8⟩) ∧
    (⟨tyMin6, 8⟩ : StuffInst).ty = (⟨tyMin6, 6⟩ : StuffInst).ty ∧
    (∃ r, (combine_stuff ⟨tyMin6, 8⟩ ⟨tyMin6, 6⟩).1 = .ok r) ∧
    unique_put ⟨tyU, {1}⟩ ⟨tyU2, {2}⟩ =
      (.error .typeError, ⟨tyU, {1}⟩, ⟨tyU2, {2}⟩) ∧
    (∃ r, (unique_put ⟨tyU, {1}⟩ ⟨tyU, {2}⟩).1 = .ok r) ∧
    unique_combine ⟨tyU, {1}⟩ ⟨tyU2, {2}⟩ =
      (.error .typeError, ⟨tyU, {1}⟩, ⟨tyU2, {2}⟩) ∧
    unique_combine ⟨tyU, {1}⟩ ⟨tyU, {2}⟩ =
      (.error .typeError, ⟨tyU, {1}⟩, ⟨tyU, {2}⟩) := by
  obtain h := type_isolation ⟨tyMin6, 8⟩ ⟨tyOther, 8⟩ ⟨tyU, {1}⟩ ⟨tyU2, {2}⟩
  obtain h' := type_isolation ⟨tyMin6, 8⟩ ⟨tyMin6, 6⟩ ⟨tyU, {1}⟩ ⟨tyU, {2}⟩
  exact ⟨h.1 (by decide), h'.2.1 ⟨tyMin6, 14⟩ rfl, h'.2.2.1 rfl,
    h.2.2.2.1 (by decide), h'.2.2.2.2.2.1 rfl, h.2.2.2.2.2.2,
    h'.2.2.2.2.2.2⟩

/-- C9.  Registry: defining a (validly configured) Stuff type under a name
that is already registered always fails with the TypeError-kind — whatever
the new configuration, identical or not — and the registry still maps that
name to the first-registered type; `get_stuff` is a total function that
returns the registered type for a present name and `none` for a name held
by no entry. -/
theorem register_duplicate_fails (reg : Registry) (tid : Nat)
    (ma g : Int) (n : String) (t : StuffType)
    (hma : 1 ≤ ma) (hg : 1 ≤ g) (hfound : get_stuff reg n = some t) :
    (define_stuff reg tid ma g (some n)).1 = .error .typeError ∧
    (define_stuff reg tid ma g (some n)).2 = reg ∧
    get_stuff (define_stuff reg tid ma g (some n)).2 n = some t ∧
    ∀ n' : String, (∀ e ∈ reg, e.1 ≠ n') → get_stuff reg n' = none := by
  have hdef : define_stuff reg tid ma g (some n) = (.error .typeError, reg) := by
    simp only [define_stuff, if_neg (by omega : ¬ ma < 1),
      if_neg (by omega : ¬ g < 1), hfound]
  refine ⟨by rw [hdef], by rw [hdef], by rw [hdef]; exact hfound, ?_⟩
  intro n' habs
  unfold get_stuff
  rw [List.find?_eq_none.mpr]
  · rfl
  · intro e he
    simpa using habs e he

/-- C9 witness: redefining the name "A" (already bound to `tyRegA` in
`regA`) with a fresh configuration fails and leaves the registry lookup
unchanged; a name bound by no entry looks up to `none`. -/
theorem register_duplicate_fails_witness :
    (define_stuff regA 7 2 2 (some "A")).1 = .error .typeError ∧
    (define_stuff regA 7 2 2 (some "A")).2 = regA ∧
    get_stuff (define_stuff regA 7 2 2 (some "A")).2 "A" = some tyRegA ∧
    get_stuff regA "B" = none := by
  obtain ⟨h1, h2, h3, h4⟩ :=
    register_duplicate_fails regA 7 2 2 "A" tyRegA (by decide) (by decide) rfl
  exact ⟨h1, h2, h3, h4 "B" (by decide)⟩

/-- C10.  The can-divide check `s % p` (here `mod_stuff`): on a validated
fungible type, for every positive integer `p` the check returns `True`
exactly when `s.divide(p)` would return without raising, and the check
leaves `s` unchanged. -/
theorem can_divide_iff_divide_ok (s : StuffInst) (p : Int)
    (hm : 1 ≤ s.ty.min_amount) (hg : 1 ≤ s.ty.granularity) (hp : 0 < p) :
    ((mod_stuff s p).1 = .ok true ↔ ∃ l s', divide_stuff s p = (.ok l, s')) ∧
    (mod_stuff s p).2 = s := by
  have hfst : (mod_stuff s p).1 =
      .ok (decide (least_allowed_units s.ty ≤ s.granular_units / p)) := by
    simp [mod_stuff, if_neg (by omega : ¬ p ≤ 0)]
  constructor
  · rw [hfst]
    by_cases hc : least_allowed_units s.ty ≤ s.granular_units / p
    · have hok := divide_stuff_ok s.ty s.granular_units p hp
        (one_le_least_allowed_units s.ty hm hg) hc
      simp only [hc, decide_True]
      exact iff_of_true trivial ⟨_, _, hok⟩
    · have hdiv : divide_stuff s p = (.error .valueError, s) := by
        simp [divide_stuff, if_neg (by omega : ¬ p ≤ 0), if_pos (not_le.mp hc)]
      refine iff_of_false (by simp [hc]) ?_
      rintro ⟨l, s', h⟩
      rw [hdiv] at h
      simp at h
  · simp only [mod_stuff]
    split <;> rfl

/-- C10 witness: with minimum 3 and 31 units, the check at 3 pieces returns
`True`, divide succeeds, and the check does not change the instance. -/
theorem can_divide_iff_divide_ok_witness :
    ((mod_stuff ⟨tyMin3, 31⟩ 3).1 = .ok true ↔
      ∃ l s', divide_stuff ⟨tyMin3, 31⟩ 3 = (.ok l, s')) ∧
    (mod_stuff ⟨tyMin3, 31⟩ 3).2 = ⟨tyMin3, 31⟩ :=
  can_divide_iff_divide_ok ⟨tyMin3, 31⟩ 3 (by decide) (by decide) (by decide)
